import Mathlib

/-!
Verification development for the pipeline control plane of the
`ai-product-team` repository: Cost Ledger (`src/core/cost_tracker.py`),
Loop Detector (`src/core/loop_detector.py`), Safety Monitor
(`src/core/safety.py`), Pipeline Controller (`src/core/orchestrator.py`)
and Institutional Memory (`src/core/learning_engine.py`).

Modelling conventions:
* Python floats are modelled as `ℚ` (all arithmetic in the control plane is
  sums, products and comparisons of decimal constants, exact over `ℚ`).
* Token counts are `ℕ`.
* A Python `raise` is modelled by an `Except`/`Option` result alongside the
  post-mutation state, since the source mutates state before raising.
* `datetime.now(...)` timestamps are modelled as `ℕ` ticks; ISO-8601 strings
  of UTC datetimes compare lexicographically exactly as their ticks compare,
  so the `created_at.isoformat()` sort key becomes the tick itself.
* The `%.4f` fixed-point rendering inside exception messages is abstracted
  by printing the exact rationals; no claim depends on the rendered digits.
-/

namespace AIProductTeam

/-! ## Cost Ledger — `src/core/cost_tracker.py` -/

/-- `CostEntry`: a single API call's cost record (timestamp not modelled;
no claim observes it on cost entries). -/
structure CostEntry where
  agent_name : String
  model : String
  input_tokens : ℕ
  output_tokens : ℕ
  cost_usd : ℚ
  phase : String
  deriving Repr, DecidableEq

/-- `MODEL_PRICING.get(model, (5.0, 15.0))`: the static pricing table with
its conservative default pair for unknown models. -/
def MODEL_PRICING (model : String) : ℚ × ℚ :=
  if model = "claude-sonnet-4-20250514" then (3, 15)
  else if model = "claude-haiku-3-5-20241022" then (0.80, 4)
  else if model = "claude-opus-4-20250514" then (15, 75)
  else if model = "gpt-4o-mini" then (0.15, 0.60)
  else if model = "gpt-4o" then (2.50, 10)
  else (5, 15)

/-- `CostTracker`: budget plus the append-only entry list. -/
structure CostTracker where
  budget_usd : ℚ
  entries : List CostEntry
  deriving Repr, DecidableEq

/-- `CostTracker.total_cost`: `sum(e.cost_usd for e in self.entries)`. -/
def CostTracker.total_cost (t : CostTracker) : ℚ :=
  (t.entries.map CostEntry.cost_usd).sum

/-- `CostTracker.remaining_budget`: `max(0.0, budget - total_cost)`. -/
def CostTracker.remaining_budget (t : CostTracker) : ℚ :=
  max 0 (t.budget_usd - t.total_cost)

/-- `CostTracker.is_over_budget`: `total_cost >= budget_usd`. -/
def CostTracker.is_over_budget (t : CostTracker) : Bool :=
  decide (t.budget_usd ≤ t.total_cost)

/-- The cost formula of `CostTracker.record`:
`(input_tokens * pricing[0] + output_tokens * pricing[1]) / 1_000_000`. -/
def computeCost (model : String) (input_tokens output_tokens : ℕ) : ℚ :=
  let pricing := MODEL_PRICING model
  (input_tokens * pricing.1 + output_tokens * pricing.2) / 1000000

/-- The message carried by `BudgetExceededError` (fixed-point formatting of
the two amounts abstracted by exact printing). -/
def budgetExceededMessage (total budget : ℚ) : String :=
  "Budget exceeded: $" ++ toString total ++ " / $" ++ toString budget

/-- `CostTracker.record`: appends the freshly priced entry, then raises
`BudgetExceededError` (modelled as `.error msg`) if the new total meets or
exceeds the budget; otherwise returns the entry. The returned tracker is the
post-mutation state in both cases. -/
def CostTracker.record (t : CostTracker) (agent_name model : String)
    (input_tokens output_tokens : ℕ) (phase : String) :
    CostTracker × Except String CostEntry :=
  let cost := computeCost model input_tokens output_tokens
  let entry : CostEntry :=
    ⟨agent_name, model, input_tokens, output_tokens, cost, phase⟩
  let t' : CostTracker := ⟨t.budget_usd, t.entries ++ [entry]⟩
  if t'.is_over_budget then
    (t', .error (budgetExceededMessage t'.total_cost t'.budget_usd))
  else
    (t', .ok entry)

/-! ## Loop Detector — `src/core/loop_detector.py` -/

/-- `LoopAction`: what to do when a loop is detected. -/
inductive LoopAction where
  | inject_prompt
  | skip_turn
  | kill
  deriving Repr, DecidableEq

/-- The `.value` string of each `LoopAction` enum member. -/
def LoopAction.value : LoopAction → String
  | .inject_prompt => "inject_prompt"
  | .skip_turn => "skip_turn"
  | .kill => "kill"

/-- `LoopEvent`: record of a detected loop (timestamp modelled as a `ℕ`
tick; the detector itself never reads it, so it is set to 0 here). -/
structure LoopEvent where
  agent_name : String
  action_taken : LoopAction
  similarity_score : ℚ
  message_window : List String
  deriving Repr, DecidableEq

/-- Split a lower-cased character stream into whitespace-separated words,
dropping empty pieces — the behaviour of Python `str.split()` with no
arguments. `acc` holds the (reversed) characters of the word in progress. -/
def wordsAux : List Char → List Char → List String
  | [], acc => if acc = [] then [] else [String.mk acc.reverse]
  | c :: cs, acc =>
    if c.isWhitespace then
      if acc = [] then wordsAux cs []
      else String.mk acc.reverse :: wordsAux cs []
    else wordsAux cs (c :: acc)

/-- The word set of a text: `set(text.lower().split())`, represented as a
duplicate-free list. Lower-casing is per-character ASCII case-folding and
the whitespace class is `Char.isWhitespace`, which covers every whitespace
character occurring in this system's messages. -/
def wordSet (text : String) : List String :=
  (wordsAux (text.toList.map Char.toLower) []).dedup

/-- `LoopDetector._jaccard_similarity`: `|w1 ∩ w2| / |w1 ∪ w2|` over the two
word sets, `0.0` when either side is empty. -/
def jaccard_similarity (text1 text2 : String) : ℚ :=
  let words1 := wordSet text1
  let words2 := wordSet text2
  if words1 = [] ∨ words2 = [] then 0
  else
    ((words1.filter (fun w => w ∈ words2)).length : ℚ) /
      ((words1 ++ words2.filter (fun w => w ∉ words1)).length : ℚ)

/-- `l[-n:]` on a Python list: the last `n` elements. -/
def lastN (n : ℕ) (l : List String) : List String :=
  l.drop (l.length - n)

/-- `LoopDetector`: threshold, window size, per-agent history (the Python
dict is modelled as a total function defaulting to `[]`, which `check`'s
"insert `[]` if absent" step makes observationally identical), and the
append-only event list. -/
structure LoopDetector where
  threshold : ℚ
  window_size : ℕ
  history : String → List String
  events : List LoopEvent

/-- `LoopDetector.check`: compare the new message against the last
`window_size` stored messages; count those with similarity `≥ threshold`;
append the message; trim the stored history to the `3 * window_size` most
recent; if at least `window_size - 1` predecessors were similar, flag a
loop, choose the action from the number of prior events for this agent
(`≥2 → KILL`, `≥1 → SKIP_TURN`, else `INJECT_PROMPT`), and append a
`LoopEvent` whose score field is the configured threshold and whose window
is the last `window_size` messages of the untrimmed appended history. -/
def LoopDetector.check (d : LoopDetector) (agent_name message : String) :
    LoopDetector × Option LoopAction :=
  let history := d.history agent_name
  let similar_count :=
    ((lastN d.window_size history).filter
      (fun past_msg => decide (d.threshold ≤ jaccard_similarity message past_msg))).length
  let appended := history ++ [message]
  let stored :=
    if d.window_size * 3 < appended.length then lastN (d.window_size * 3) appended
    else appended
  let d1 : LoopDetector :=
    ⟨d.threshold, d.window_size,
      fun a => if a = agent_name then stored else d.history a, d.events⟩
  if d.window_size - 1 ≤ similar_count then
    let agent_events := d.events.filter (fun e => e.agent_name = agent_name)
    let action : LoopAction :=
      if 2 ≤ agent_events.length then .kill
      else if 1 ≤ agent_events.length then .skip_turn
      else .inject_prompt
    let event : LoopEvent :=
      ⟨agent_name, action, d.threshold, lastN d.window_size appended⟩
    (⟨d1.threshold, d1.window_size, d1.history, d1.events ++ [event]⟩, some action)
  else
    (d1, none)

/-! ## Safety Monitor — `src/core/safety.py` -/

/-- `SystemStatus`: overall system status. -/
inductive SystemStatus where
  | running
  | paused
  | killed
  | completed
  deriving Repr, DecidableEq

/-- The `.value` string of each `SystemStatus` enum member. -/
def SystemStatus.value : SystemStatus → String
  | .running => "running"
  | .paused => "paused"
  | .killed => "killed"
  | .completed => "completed"

/-- `SafetyEvent`: record of any safety-related event (timestamp not
modelled; no claim observes it). -/
structure SafetyEvent where
  event_type : String
  agent_name : String
  message : String
  deriving Repr, DecidableEq

/-- `SafetyMonitor`: central safety authority — cost tracker, loop
detector, status flag, append-only event log. -/
structure SafetyMonitor where
  cost_tracker : CostTracker
  loop_detector : LoopDetector
  status : SystemStatus
  events : List SafetyEvent

/-- `SafetyMonitor.is_safe_to_proceed`: `status == RUNNING`. -/
def SafetyMonitor.is_safe_to_proceed (m : SafetyMonitor) : Bool :=
  decide (m.status = SystemStatus.running)

/-- `SafetyMonitor.kill`: unconditionally set `KILLED` and log the event. -/
def SafetyMonitor.kill (m : SafetyMonitor) (reason : String) : SafetyMonitor :=
  ⟨m.cost_tracker, m.loop_detector, SystemStatus.killed,
    m.events ++ [⟨"killed", "system", "KILL SWITCH: " ++ reason⟩]⟩

/-- `SafetyMonitor.pause`: `RUNNING → PAUSED` with an event, otherwise a
no-op. -/
def SafetyMonitor.pause (m : SafetyMonitor) : SafetyMonitor :=
  if m.status = SystemStatus.running then
    ⟨m.cost_tracker, m.loop_detector, SystemStatus.paused,
      m.events ++ [⟨"paused", "system", "Pipeline paused by operator"⟩]⟩
  else m

/-- `SafetyMonitor.resume`: `PAUSED → RUNNING` with an event, otherwise a
no-op. -/
def SafetyMonitor.resume (m : SafetyMonitor) : SafetyMonitor :=
  if m.status = SystemStatus.paused then
    ⟨m.cost_tracker, m.loop_detector, SystemStatus.running,
      m.events ++ [⟨"resumed", "system", "Pipeline resumed by operator"⟩]⟩
  else m

/-- `SafetyMonitor.check_agent_message`: fail-closed `KILL` when not safe;
otherwise delegate to the loop detector, log any flagged action, and invoke
`kill` when the action is `KILL`. -/
def SafetyMonitor.check_agent_message (m : SafetyMonitor)
    (agent_name message : String) : SafetyMonitor × Option LoopAction :=
  if ¬ m.is_safe_to_proceed then (m, some LoopAction.kill)
  else
    let r := m.loop_detector.check agent_name message
    let m1 : SafetyMonitor := ⟨m.cost_tracker, r.1, m.status, m.events⟩
    match r.2 with
    | none => (m1, none)
    | some a =>
      let m2 : SafetyMonitor :=
        ⟨m1.cost_tracker, m1.loop_detector, m1.status,
          m1.events ++ [⟨"loop_detected:" ++ a.value, agent_name,
            "Loop detected — action: " ++ a.value⟩]⟩
      let m3 := if a = LoopAction.kill then
          m2.kill "Loop escalation — agent stuck in infinite loop"
        else m2
      (m3, some a)

/-- `SafetyMonitor.record_cost`: delegate to the ledger; on
`BudgetExceededError` append a `budget_exceeded` event, `kill`, and
re-raise (the re-raised message is the `some` component). -/
def SafetyMonitor.record_cost (m : SafetyMonitor) (agent_name model : String)
    (input_tokens output_tokens : ℕ) (phase : String) :
    SafetyMonitor × Option String :=
  let r := m.cost_tracker.record agent_name model input_tokens output_tokens phase
  match r.2 with
  | .ok _ => (⟨r.1, m.loop_detector, m.status, m.events⟩, none)
  | .error e =>
    let m1 : SafetyMonitor :=
      ⟨r.1, m.loop_detector, m.status,
        m.events ++ [⟨"budget_exceeded", agent_name, e⟩]⟩
    (m1.kill e, some e)

/-- An operator/safety operation on the monitor, for stating the status
state machine over arbitrary call sequences. -/
inductive SafetyOp where
  | pause
  | resume
  | kill (reason : String)

/-- Apply one `SafetyOp` to the monitor. -/
def applySafetyOp (m : SafetyMonitor) : SafetyOp → SafetyMonitor
  | .pause => m.pause
  | .resume => m.resume
  | .kill reason => m.kill reason

/-! ## Pipeline phases — `src/core/phases.py` -/

/-- `PipelinePhase`: the seven phases of the pipeline. -/
inductive PipelinePhase where
  | ideation
  | market_research
  | feasibility
  | product_design
  | prototyping
  | testing
  | viability
  deriving Repr, DecidableEq

/-- The `.value` string of each `PipelinePhase` enum member. -/
def PipelinePhase.value : PipelinePhase → String
  | .ideation => "ideation"
  | .market_research => "market_research"
  | .feasibility => "feasibility"
  | .product_design => "product_design"
  | .prototyping => "prototyping"
  | .testing => "testing"
  | .viability => "viability"

/-- `GateRequirement`: what must be true for an idea to pass a phase gate. -/
structure GateRequirement where
  phase : PipelinePhase
  min_judge_score : ℤ
  description : String
  deriving Repr, DecidableEq

/-- `GATE_REQUIREMENTS`: the static phase → gate table. -/
def GATE_REQUIREMENTS : PipelinePhase → GateRequirement
  | .ideation => ⟨.ideation, 6, "Novelty and clarity pass minimum bar"⟩
  | .market_research => ⟨.market_research, 7, "Market evidence supports the concept"⟩
  | .feasibility => ⟨.feasibility, 7, "Technical approach is viable and scoped"⟩
  | .product_design => ⟨.product_design, 8, "PRD is complete and internally consistent"⟩
  | .prototyping => ⟨.prototyping, 7, "Code passes tests and review"⟩
  | .testing => ⟨.testing, 7, "Coverage ≥ 80%, pass rate ≥ 90%"⟩
  | .viability => ⟨.viability, 8, "Final go/no-go — holistic viability"⟩

/-! ## Work items — `src/models/ideas.py` (file absent from the sources;
only its importers are present). -/

/-- Modelled from the spec: WorkItem status — "a status in
{DRAFT, PASSED, FAILED}" (`src/models/ideas.py` is not in the sources). -/
inductive IdeaStatus where
  | draft
  | passed
  | failed
  deriving Repr, DecidableEq

/-- Modelled from the spec: a WorkItem (ProductIdea) — "unique identifier,
free-text descriptive fields, a numeric self-reported confidence in [0,1],
and a status" (`src/models/ideas.py` is not in the sources; the fields the
Controller reads are `id`, `name`, `elevator_pitch`, `status`). -/
structure ProductIdea where
  id : String
  name : String
  elevator_pitch : String
  confidence : ℚ
  status : IdeaStatus
  deriving Repr, DecidableEq

/-- Modelled from the spec: a batch of WorkItems with a session identifier
(`src/models/ideas.py` is not in the sources; the Controller reads
`batch.session_id` and `batch.ideas`). -/
structure IdeaBatch where
  session_id : String
  ideas : List ProductIdea
  deriving Repr, DecidableEq

/-! ## Evaluations — `src/models/evaluations.py` -/

/-- `IdeaScore`: score for a single idea (the four sub-scores are not read
by the control plane and are omitted; `overall` and `pass_gate` drive the
gate). -/
structure IdeaScore where
  idea_id : String
  idea_name : String
  overall : ℤ
  reasoning : String
  pass_gate : Bool
  deriving Repr, DecidableEq

/-- `EvaluationReport`: complete evaluation report for a batch (identifier
and timestamp fields are opaque to the control plane and omitted). -/
structure EvaluationReport where
  session_id : String
  scores : List IdeaScore
  gate_threshold : ℤ
  deriving Repr, DecidableEq

/-! ## Pipeline Controller — `src/core/orchestrator.py` -/

/-- `PhaseResult`: the outcome of running a single pipeline phase
(`duration_seconds` is wall-clock time and is not modelled). -/
structure PhaseResult where
  phase : PipelinePhase
  success : Bool
  ideas_in : ℕ
  ideas_out : ℕ
  evaluation : Option EvaluationReport
  error : Option String
  deriving Repr, DecidableEq

/-- `PipelineRun`: state for a complete pipeline execution (`started_at`
not modelled; `phase_results` is declared in the source but never written
by `execute_ideation`). -/
structure PipelineRun where
  session_id : String
  current_phase : PipelinePhase
  phase_results : List PhaseResult
  active_ideas : List ProductIdea
  archived_ideas : List ProductIdea
  deriving Repr, DecidableEq

/-- The `result.usage()` token counts of the generation call. -/
structure Usage where
  request_tokens : ℕ
  response_tokens : ℕ
  deriving Repr, DecidableEq

/-- `Orchestrator`: safety monitor plus run state. -/
structure Orchestrator where
  safety : SafetyMonitor
  run : PipelineRun

/-- A failed `PhaseResult` as built by the `except` branches and the
precondition branch of `execute_ideation`: `success=False`, zero counts, no
evaluation, the error text. -/
def failedPhaseResult (phase : PipelinePhase) (e : String) : PhaseResult :=
  ⟨phase, false, 0, 0, none, some e⟩

/-- The gate-matching of `execute_ideation`:
`next((s for s in evaluation.scores if s.idea_id == idea.id or
s.idea_name == idea.name), None)` — the first score matching by identifier
OR by name, in report order. -/
def findScore (evaluation : EvaluationReport) (idea : ProductIdea) :
    Option IdeaScore :=
  evaluation.scores.find?
    (fun s => s.idea_id == idea.id || s.idea_name == idea.name)

/-- Does the gate pass this idea? (`score and score.pass_gate`). -/
def ideaPasses (evaluation : EvaluationReport) (idea : ProductIdea) : Bool :=
  match findScore evaluation idea with
  | some s => s.pass_gate
  | none => false

/-- One iteration of the gate loop of `execute_ideation`: accumulate the
idea (with its status set) into the passed list or the archived list. -/
def gateStep (evaluation : EvaluationReport)
    (acc : List ProductIdea × List ProductIdea) (idea : ProductIdea) :
    List ProductIdea × List ProductIdea :=
  match findScore evaluation idea with
  | some s =>
    if s.pass_gate then
      (acc.1 ++ [{ idea with status := IdeaStatus.passed }], acc.2)
    else
      (acc.1, acc.2 ++ [{ idea with status := IdeaStatus.failed }])
  | none => (acc.1, acc.2 ++ [{ idea with status := IdeaStatus.failed }])

/-- `Orchestrator.execute_ideation`. The two external collaborators are
parameters: `gen` is the outcome of `visionary_agent.run` (`.error` models
a raised provider exception) and `evalRes` the outcome of `evaluate_ideas`.
The body follows the source line by line: safety precondition; generation;
`record_cost` (which may raise `BudgetExceeded`); the per-idea
`check_agent_message` loop whose returned action is discarded; evaluation;
the gate loop; the final `PhaseResult`. Every `raise` is caught at the
bottom and becomes a `failedPhaseResult`, so the function is total. -/
def Orchestrator.execute_ideation (o : Orchestrator)
    (gen : Except String (IdeaBatch × Usage))
    (evalRes : Except String EvaluationReport) :
    Orchestrator × PhaseResult :=
  let phase := PipelinePhase.ideation
  if ¬ o.safety.is_safe_to_proceed then
    (o, failedPhaseResult phase ("System status: " ++ o.safety.status.value))
  else
    match gen with
    | .error e => (o, failedPhaseResult phase e)
    | .ok (batch, usage) =>
      let run1 : PipelineRun :=
        { o.run with session_id := batch.session_id }
      let rc := o.safety.record_cost "Visionary" "claude-sonnet-4-20250514"
        usage.request_tokens usage.response_tokens phase.value
      match rc.2 with
      | some e => (⟨rc.1, run1⟩, failedPhaseResult phase e)
      | none =>
        let m2 := batch.ideas.foldl
          (fun m idea => (m.check_agent_message "Visionary" idea.elevator_pitch).1)
          rc.1
        match evalRes with
        | .error e => (⟨m2, run1⟩, failedPhaseResult phase e)
        | .ok evaluation =>
          let part := batch.ideas.foldl (gateStep evaluation) ([], [])
          let run2 : PipelineRun :=
            { run1 with
                current_phase := phase,
                active_ideas := part.1,
                archived_ideas := run1.archived_ideas ++ part.2 }
          (⟨m2, run2⟩,
            ⟨phase, decide (0 < part.1.length), batch.ideas.length,
              part.1.length, some evaluation, none⟩)

/-! ## Institutional Memory — `src/core/learning_engine.py` and
`src/models/learning.py` -/

/-- `LessonCategory` from `src/models/learning.py`. -/
inductive LessonCategory where
  | market_insight
  | technical_discovery
  | process_improvement
  | anti_pattern
  | strategic_pivot
  deriving Repr, DecidableEq

/-- `ValidationStatus` from `src/models/learning.py`. -/
inductive ValidationStatus where
  | unvalidated
  | supported
  | contradicted
  deriving Repr, DecidableEq

/-- `Lesson` from `src/models/learning.py`. `created_at` is the `ℕ` tick of
the creation datetime; `isoformat()` of UTC datetimes is lexicographically
monotone in time, so the source's string sort key orders exactly as the
tick does. -/
structure Lesson where
  id : String
  session_id : String
  agent_name : String
  phase : String
  category : LessonCategory
  observation : String
  evidence : String
  confidence : ℚ
  validation_status : ValidationStatus
  created_at : ℕ
  deriving Repr, DecidableEq

/-- The `status_order` dict of `get_relevant_lessons`
(`SUPPORTED ↦ 0, UNVALIDATED ↦ 1, CONTRADICTED ↦ 2`; the `.get(_, 1)`
default is unreachable over the total enum). -/
def statusOrder : ValidationStatus → ℕ
  | .supported => 0
  | .unvalidated => 1
  | .contradicted => 2

/-- The sort key of `get_relevant_lessons` as a relation: ascending
lexicographic comparison of
`(status_order[validation_status], -confidence, created_at.isoformat())`. -/
def lessonSortLE (a b : Lesson) : Prop :=
  statusOrder a.validation_status < statusOrder b.validation_status ∨
    (statusOrder a.validation_status = statusOrder b.validation_status ∧
      (b.confidence < a.confidence ∨
        (a.confidence = b.confidence ∧ a.created_at ≤ b.created_at)))

instance : DecidableRel lessonSortLE := fun a b => by
  unfold lessonSortLE; infer_instance

instance : IsTotal Lesson lessonSortLE := by
  constructor
  intro a b
  unfold lessonSortLE
  rcases Nat.lt_trichotomy (statusOrder a.validation_status)
      (statusOrder b.validation_status) with h | h | h
  · exact Or.inl (Or.inl h)
  · rcases lt_trichotomy a.confidence b.confidence with hc | hc | hc
    · exact Or.inr (Or.inr ⟨h.symm, Or.inl hc⟩)
    · rcases Nat.le_total a.created_at b.created_at with ht | ht
      · exact Or.inl (Or.inr ⟨h, Or.inr ⟨hc, ht⟩⟩)
      · exact Or.inr (Or.inr ⟨h.symm, Or.inr ⟨hc.symm, ht⟩⟩)
    · exact Or.inl (Or.inr ⟨h, Or.inl hc⟩)
  · exact Or.inr (Or.inl h)

instance : IsTrans Lesson lessonSortLE := by
  constructor
  intro a b c hab hbc
  unfold lessonSortLE at *
  rcases hab with h1 | ⟨e1, h1⟩
  · rcases hbc with h2 | ⟨e2, _⟩
    · exact Or.inl (h1.trans h2)
    · exact Or.inl (e2 ▸ h1)
  · rcases hbc with h2 | ⟨e2, h2⟩
    · exact Or.inl (e1 ▸ h2)
    · refine Or.inr ⟨e1.trans e2, ?_⟩
      rcases h1 with hc1 | ⟨ec1, ht1⟩
      · rcases h2 with hc2 | ⟨ec2, _⟩
        · exact Or.inl (hc2.trans hc1)
        · exact Or.inl (ec2 ▸ hc1)
      · rcases h2 with hc2 | ⟨ec2, ht2⟩
        · exact Or.inl (ec1 ▸ hc2)
        · exact Or.inr ⟨ec1.trans ec2, ht1.trans ht2⟩

/-- `LearningEngine` (only the `lessons` store is modelled; the graveyard
and failure-analysis stores are not touched by any claim considered
here). -/
structure LearningEngine where
  lessons : List Lesson

/-- `LearningEngine.get_relevant_lessons`: filter by phase (when the phase
string is non-empty) and by category (when given), stable-sort ascending by
`(status_order, -confidence, created_at.isoformat())` (Python `list.sort`
is stable, as is `List.insertionSort`), and return the first `limit`. -/
def LearningEngine.get_relevant_lessons (e : LearningEngine) (phase : String)
    (category : Option LessonCategory) (limit : ℕ) : List Lesson :=
  let f1 := if phase = "" then e.lessons
    else e.lessons.filter (fun l => l.phase == phase)
  let f2 := match category with
    | none => f1
    | some c => f1.filter (fun l => l.category == c)
  (f2.insertionSort lessonSortLE).take limit

/-- The ordering stated by the spec for `relevant_lessons`, as a relation:
like `lessonSortLE` but with the third component — recency — ordered
DESCENDING ("most recent first"). Used only to compare the spec's claimed
ordering with the source's. -/
def specLessonSortLE (a b : Lesson) : Prop :=
  statusOrder a.validation_status < statusOrder b.validation_status ∨
    (statusOrder a.validation_status = statusOrder b.validation_status ∧
      (b.confidence < a.confidence ∨
        (a.confidence = b.confidence ∧ b.created_at ≤ a.created_at)))

instance : DecidableRel specLessonSortLE := fun a b => by
  unfold specLessonSortLE; infer_instance

/-- `relevant_lessons` as the spec describes it (recency descending),
for the refinement comparison. -/
def spec_get_relevant_lessons (e : LearningEngine) (phase : String)
    (category : Option LessonCategory) (limit : ℕ) : List Lesson :=
  let f1 := if phase = "" then e.lessons
    else e.lessons.filter (fun l => l.phase == phase)
  let f2 := match category with
    | none => f1
    | some c => f1.filter (fun l => l.category == c)
  (f2.insertionSort specLessonSortLE).take limit

/-! ## Helper lemmas -/

section Theorems

/- Batteries marks the rational arithmetic operations `@[irreducible]`;
re-allow unfolding locally so that concrete executions of the embedded
code can be evaluated by `decide`. -/
attribute [local semireducible] Rat.mul Rat.inv Rat.add Rat.sub Rat.ofScientific

instance {ε α : Type} [DecidableEq ε] [DecidableEq α] :
    DecidableEq (Except ε α) := fun x y =>
  match x, y with
  | .ok a, .ok b =>
    if h : a = b then isTrue (by rw [h])
    else isFalse (fun hc => h (by injection hc))
  | .error a, .error b =>
    if h : a = b then isTrue (by rw [h])
    else isFalse (fun hc => h (by injection hc))
  | .ok _, .error _ => isFalse (fun hc => Except.noConfusion hc)
  | .error _, .ok _ => isFalse (fun hc => Except.noConfusion hc)

/-- The entry appended by one `record` call. -/
def mkEntry (agent model : String) (i o : ℕ) (ph : String) : CostEntry :=
  ⟨agent, model, i, o, computeCost model i o, ph⟩

theorem record_fst (t : CostTracker) (agent model : String) (i o : ℕ)
    (ph : String) :
    (t.record agent model i o ph).1 =
      ⟨t.budget_usd, t.entries ++ [mkEntry agent model i o ph]⟩ := by
  unfold CostTracker.record mkEntry
  dsimp only
  split <;> rfl

theorem record_snd_error (t : CostTracker) (agent model : String) (i o : ℕ)
    (ph : String)
    (h : t.budget_usd ≤ (t.record agent model i o ph).1.total_cost) :
    (t.record agent model i o ph).2 =
      Except.error (budgetExceededMessage
        (t.record agent model i o ph).1.total_cost t.budget_usd) := by
  rw [record_fst] at h ⊢
  unfold CostTracker.record mkEntry
  dsimp only
  rw [show (⟨t.budget_usd, t.entries ++
      [⟨agent, model, i, o, computeCost model i o, ph⟩]⟩ :
      CostTracker).is_over_budget = true from by
    simp only [CostTracker.is_over_budget, decide_eq_true_eq]
    simpa [mkEntry] using h]
  rfl

theorem record_snd_ok (t : CostTracker) (agent model : String) (i o : ℕ)
    (ph : String)
    (h : ¬ t.budget_usd ≤ (t.record agent model i o ph).1.total_cost) :
    (t.record agent model i o ph).2 = Except.ok (mkEntry agent model i o ph) := by
  rw [record_fst] at h
  unfold CostTracker.record mkEntry
  dsimp only
  rw [show (⟨t.budget_usd, t.entries ++
      [⟨agent, model, i, o, computeCost model i o, ph⟩]⟩ :
      CostTracker).is_over_budget = false from by
    simp only [CostTracker.is_over_budget, decide_eq_false_iff_not]
    simpa [mkEntry] using h]
  rfl

theorem record_cost_error (m : SafetyMonitor) (agent model : String)
    (i o : ℕ) (ph : String) (e : String)
    (h : (m.cost_tracker.record agent model i o ph).2 = Except.error e) :
    m.record_cost agent model i o ph =
      (⟨(m.cost_tracker.record agent model i o ph).1, m.loop_detector,
        SystemStatus.killed,
        m.events ++ [⟨"budget_exceeded", agent, e⟩,
          ⟨"killed", "system", "KILL SWITCH: " ++ e⟩]⟩, some e) := by
  unfold SafetyMonitor.record_cost
  dsimp only
  rw [h]
  simp [SafetyMonitor.kill]

theorem record_cost_ok (m : SafetyMonitor) (agent model : String)
    (i o : ℕ) (ph : String) (c : CostEntry)
    (h : (m.cost_tracker.record agent model i o ph).2 = Except.ok c) :
    m.record_cost agent model i o ph =
      (⟨(m.cost_tracker.record agent model i o ph).1, m.loop_detector,
        m.status, m.events⟩, none) := by
  unfold SafetyMonitor.record_cost
  dsimp only
  rw [h]

/-- C1: a `CostTracker.record` call whose new running total meets or
exceeds the budget raises `BudgetExceeded` with the over-budget entry
already appended; when such a call goes through
`SafetyMonitor.record_cost`, the monitor appends a `budget_exceeded`
`SafetyEvent`, transitions to `KILLED` (logging the kill event), and
re-raises the same exception. -/
theorem c1_budget_exceeded_raise_and_kill
    (t : CostTracker) (m : SafetyMonitor) (agent model ph : String)
    (i o : ℕ) :
    (t.budget_usd ≤ (t.record agent model i o ph).1.total_cost →
      (t.record agent model i o ph).2 =
        Except.error (budgetExceededMessage
          (t.record agent model i o ph).1.total_cost t.budget_usd) ∧
      (t.record agent model i o ph).1.entries =
        t.entries ++ [mkEntry agent model i o ph]) ∧
    (∀ e, (m.cost_tracker.record agent model i o ph).2 = Except.error e →
      (m.record_cost agent model i o ph).2 = some e ∧
      (m.record_cost agent model i o ph).1.status = SystemStatus.killed ∧
      (m.record_cost agent model i o ph).1.events =
        m.events ++ [⟨"budget_exceeded", agent, e⟩,
          ⟨"killed", "system", "KILL SWITCH: " ++ e⟩] ∧
      (m.record_cost agent model i o ph).1.cost_tracker.entries =
        m.cost_tracker.entries ++ [mkEntry agent model i o ph]) := by
  constructor
  · intro h
    exact ⟨record_snd_error t agent model i o ph h, by rw [record_fst]⟩
  · intro e he
    rw [record_cost_error m agent model i o ph e he]
    refine ⟨rfl, rfl, rfl, ?_⟩
    rw [record_fst]

/-- Concrete instantiation for `c1_budget_exceeded_raise_and_kill`:
budget $0.01, one `gpt-4o` call with 100k input and output tokens
(cost $1.25). -/
def c1Tracker : CostTracker := ⟨1/100, []⟩

/-- A fresh loop detector with the source defaults
(`threshold=0.85`, `window_size=3`). -/
def defaultDetector : LoopDetector := ⟨0.85, 3, fun _ => [], []⟩

/-- A fresh running monitor over `c1Tracker`. -/
def c1Monitor : SafetyMonitor := ⟨c1Tracker, defaultDetector, .running, []⟩

theorem c1_budget_exceeded_raise_and_kill_witness :
    (c1Tracker.budget_usd ≤
      (c1Tracker.record "Visionary" "gpt-4o" 100000 100000 "ideation").1.total_cost) ∧
    ((c1Tracker.record "Visionary" "gpt-4o" 100000 100000 "ideation").2 =
      Except.error (budgetExceededMessage
        (c1Tracker.record "Visionary" "gpt-4o" 100000 100000 "ideation").1.total_cost
        c1Tracker.budget_usd)) ∧
    ((c1Monitor.cost_tracker.record "Visionary" "gpt-4o" 100000 100000 "ideation").2 =
      Except.error (budgetExceededMessage (5/4) (1/100))) ∧
    ((c1Monitor.record_cost "Visionary" "gpt-4o" 100000 100000 "ideation").2 =
      some (budgetExceededMessage (5/4) (1/100))) ∧
    ((c1Monitor.record_cost "Visionary" "gpt-4o" 100000 100000 "ideation").1.status =
      SystemStatus.killed) := by
  refine ⟨by decide,
    ((c1_budget_exceeded_raise_and_kill c1Tracker c1Monitor
      "Visionary" "gpt-4o" "ideation" 100000 100000).1 (by decide)).1,
    by decide,
    ((c1_budget_exceeded_raise_and_kill c1Tracker c1Monitor
      "Visionary" "gpt-4o" "ideation" 100000 100000).2
      (budgetExceededMessage (5/4) (1/100)) (by decide)).1,
    ((c1_budget_exceeded_raise_and_kill c1Tracker c1Monitor
      "Visionary" "gpt-4o" "ideation" 100000 100000).2
      (budgetExceededMessage (5/4) (1/100)) (by decide)).2.1⟩

theorem pause_not_running (m : SafetyMonitor)
    (h : m.status ≠ SystemStatus.running) : m.pause = m := by
  unfold SafetyMonitor.pause
  simp [h]

theorem resume_not_paused (m : SafetyMonitor)
    (h : m.status ≠ SystemStatus.paused) : m.resume = m := by
  unfold SafetyMonitor.resume
  simp [h]

theorem killed_stays_killed (ops : List SafetyOp) :
    ∀ m : SafetyMonitor, m.status = SystemStatus.killed →
      (ops.foldl applySafetyOp m).status = SystemStatus.killed := by
  induction ops with
  | nil => intro m h; exact h
  | cons op rest ih =>
    intro m h
    have hstep : (applySafetyOp m op).status = SystemStatus.killed := by
      cases op with
      | pause =>
        show m.pause.status = SystemStatus.killed
        rw [pause_not_running m (by rw [h]; intro hc; cases hc)]; exact h
      | resume =>
        show m.resume.status = SystemStatus.killed
        rw [resume_not_paused m (by rw [h]; intro hc; cases hc)]; exact h
      | kill reason => rfl
    exact ih (applySafetyOp m op) hstep

/-- C3: the Safety Monitor status state machine — `pause` moves only
RUNNING→PAUSED and is a no-op otherwise, `resume` moves only
PAUSED→RUNNING and is a no-op otherwise, `kill` unconditionally sets
KILLED, and KILLED is terminal under every further sequence of `pause`,
`resume` and `kill` calls. -/
theorem c3_status_state_machine (m : SafetyMonitor) (reason : String)
    (ops : List SafetyOp) :
    (m.status = SystemStatus.running → m.pause.status = SystemStatus.paused) ∧
    (m.status ≠ SystemStatus.running → m.pause = m) ∧
    (m.status = SystemStatus.paused → m.resume.status = SystemStatus.running) ∧
    (m.status ≠ SystemStatus.paused → m.resume = m) ∧
    ((m.kill reason).status = SystemStatus.killed) ∧
    (m.status = SystemStatus.killed →
      (ops.foldl applySafetyOp m).status = SystemStatus.killed) := by
  refine ⟨?_, pause_not_running m, ?_, resume_not_paused m, rfl,
    killed_stays_killed ops m⟩
  · intro h; unfold SafetyMonitor.pause; simp [h]
  · intro h; unfold SafetyMonitor.resume; simp [h]

/-- A monitor that has been killed, for the C3 witness. -/
def killedMonitor : SafetyMonitor :=
  ⟨⟨15, []⟩, defaultDetector, .killed, []⟩

theorem c3_status_state_machine_witness :
    (killedMonitor.status = SystemStatus.killed) ∧
    ((([SafetyOp.pause, SafetyOp.resume,
        SafetyOp.kill "again"]).foldl applySafetyOp killedMonitor).status =
      SystemStatus.killed) ∧
    (killedMonitor.status ≠ SystemStatus.running) ∧
    (killedMonitor.pause = killedMonitor) :=
  ⟨by decide,
    (c3_status_state_machine killedMonitor "again"
      [SafetyOp.pause, SafetyOp.resume, SafetyOp.kill "again"]).2.2.2.2.2
      (by decide),
    by decide,
    (c3_status_state_machine killedMonitor "again" []).2.1 (by decide)⟩

/-- C10: when the monitor's status is not RUNNING, `check_agent_message`
returns KILL fail-closed and changes nothing: the returned monitor is the
argument itself (same events, status, loop-detector history and events). -/
theorem c10_fail_closed_check_is_pure (m : SafetyMonitor)
    (agent message : String) (h : m.status ≠ SystemStatus.running) :
    m.check_agent_message agent message = (m, some LoopAction.kill) := by
  unfold SafetyMonitor.check_agent_message
  simp [SafetyMonitor.is_safe_to_proceed, h]

/-- A paused monitor, for the C10 witness. -/
def pausedMonitor : SafetyMonitor :=
  ⟨⟨15, []⟩, defaultDetector, .paused, []⟩

theorem c10_fail_closed_check_is_pure_witness :
    (pausedMonitor.status ≠ SystemStatus.running) ∧
    (pausedMonitor.check_agent_message "Visionary" "hello" =
      (pausedMonitor, some LoopAction.kill)) :=
  ⟨by decide,
    c10_fail_closed_check_is_pure pausedMonitor "Visionary" "hello"
      (by decide)⟩

/-- The arguments of one `record()` call, for stating properties of
arbitrary call sequences. -/
structure RecordReq where
  agent : String
  model : String
  input_tokens : ℕ
  output_tokens : ℕ
  phase : String

/-- The tracker left behind by one `record()` call (whether or not it
raised — the source appends before raising either way). -/
def applyRecordReq (t : CostTracker) (r : RecordReq) : CostTracker :=
  (t.record r.agent r.model r.input_tokens r.output_tokens r.phase).1

/-- The tracker left behind by a sequence of `record()` calls. -/
def applyRecordReqs (t : CostTracker) (rs : List RecordReq) : CostTracker :=
  rs.foldl applyRecordReq t

theorem MODEL_PRICING_nonneg (model : String) :
    0 ≤ (MODEL_PRICING model).1 ∧ 0 ≤ (MODEL_PRICING model).2 := by
  unfold MODEL_PRICING
  split_ifs <;> constructor <;> norm_num

theorem computeCost_nonneg (model : String) (i o : ℕ) :
    0 ≤ computeCost model i o := by
  unfold computeCost
  have h := MODEL_PRICING_nonneg model
  have h1 : (0:ℚ) ≤ (i : ℚ) * (MODEL_PRICING model).1 :=
    mul_nonneg (Nat.cast_nonneg i) h.1
  have h2 : (0:ℚ) ≤ (o : ℚ) * (MODEL_PRICING model).2 :=
    mul_nonneg (Nat.cast_nonneg o) h.2
  exact div_nonneg (add_nonneg h1 h2) (by norm_num)

theorem total_cost_applyRecordReq (t : CostTracker) (r : RecordReq) :
    (applyRecordReq t r).total_cost =
      t.total_cost + computeCost r.model r.input_tokens r.output_tokens := by
  unfold applyRecordReq
  rw [record_fst]
  unfold CostTracker.total_cost mkEntry
  simp

theorem budget_applyRecordReq (t : CostTracker) (r : RecordReq) :
    (applyRecordReq t r).budget_usd = t.budget_usd := by
  unfold applyRecordReq
  rw [record_fst]

theorem total_cost_applyRecordReqs (rs : List RecordReq) :
    ∀ t : CostTracker, (applyRecordReqs t rs).total_cost =
      t.total_cost +
        (rs.map (fun q => computeCost q.model q.input_tokens q.output_tokens)).sum := by
  induction rs with
  | nil => intro t; simp [applyRecordReqs]
  | cons r rest ih =>
    intro t
    show (applyRecordReqs (applyRecordReq t r) rest).total_cost = _
    rw [ih, total_cost_applyRecordReq]
    simp [add_assoc]

theorem budget_applyRecordReqs (rs : List RecordReq) :
    ∀ t : CostTracker, (applyRecordReqs t rs).budget_usd = t.budget_usd := by
  induction rs with
  | nil => intro t; rfl
  | cons r rest ih =>
    intro t
    show (applyRecordReqs (applyRecordReq t r) rest).budget_usd = _
    rw [ih, budget_applyRecordReq]

/-- C6: Cost Ledger invariants over every sequence of `record()` calls —
the total is the sum of each entry's computed cost, each call can only
increase the total, the remaining budget is never negative, and
`is_over_budget` is sticky for the life of the ledger. -/
theorem c6_ledger_invariants (t : CostTracker) (rs : List RecordReq)
    (r : RecordReq) :
    ((applyRecordReqs t rs).total_cost =
      t.total_cost +
        (rs.map (fun q => computeCost q.model q.input_tokens q.output_tokens)).sum) ∧
    (t.total_cost ≤ (applyRecordReq t r).total_cost) ∧
    (0 ≤ t.remaining_budget) ∧
    (t.is_over_budget = true → (applyRecordReqs t rs).is_over_budget = true) := by
  refine ⟨total_cost_applyRecordReqs rs t, ?_, le_max_left 0 _, ?_⟩
  · rw [total_cost_applyRecordReq]
    exact le_add_of_nonneg_right
      (computeCost_nonneg r.model r.input_tokens r.output_tokens)
  · intro h
    unfold CostTracker.is_over_budget at h ⊢
    rw [decide_eq_true_eq, budget_applyRecordReqs, total_cost_applyRecordReqs]
    rw [decide_eq_true_eq] at h
    refine le_add_of_le_of_nonneg h (List.sum_nonneg ?_)
    intro x hx
    rcases List.mem_map.1 hx with ⟨q, _, hq⟩
    exact hq ▸ computeCost_nonneg q.model q.input_tokens q.output_tokens

/-- An already over-budget ledger (zero budget) for the C6 witness. -/
def c6Tracker : CostTracker := ⟨0, []⟩

/-- A single cheap call for the C6 witness. -/
def c6Req : RecordReq := ⟨"a", "gpt-4o-mini", 100, 100, ""⟩

theorem c6_ledger_invariants_witness :
    (c6Tracker.is_over_budget = true) ∧
    ((applyRecordReqs c6Tracker [c6Req]).is_over_budget = true) ∧
    (c6Tracker.total_cost ≤ (applyRecordReq c6Tracker c6Req).total_cost) ∧
    (0 ≤ c6Tracker.remaining_budget) := by
  refine ⟨by decide,
    (c6_ledger_invariants c6Tracker [c6Req] c6Req).2.2.2 (by decide),
    (c6_ledger_invariants c6Tracker [c6Req] c6Req).2.1,
    (c6_ledger_invariants c6Tracker [c6Req] c6Req).2.2.1⟩

theorem jaccard_left_empty (t1 t2 : String) (h : wordSet t1 = []) :
    jaccard_similarity t1 t2 = 0 := by
  unfold jaccard_similarity
  rw [if_pos (Or.inl h)]

theorem lastN_length_le (n : ℕ) (l : List String) : (lastN n l).length ≤ l.length := by
  unfold lastN
  rw [List.length_drop]
  omega

/-- C7 (amended): whenever `check` flags a loop, the returned action is
determined by the number of `LoopEvent`s already recorded for that agent
(0 prior → INJECT_PROMPT, 1 prior → SKIP_TURN, ≥2 prior → KILL), and
exactly one `LoopEvent` is appended, recording the action taken, the
detector's configured threshold as the score field, and the last
`window_size` messages of the appended history as the window. -/
theorem c7_escalation_policy (d : LoopDetector) (agent msg : String)
    (a : LoopAction) (h : (d.check agent msg).2 = some a) :
    (a = if 2 ≤ (d.events.filter (fun e => e.agent_name = agent)).length then
        LoopAction.kill
      else if 1 ≤ (d.events.filter (fun e => e.agent_name = agent)).length then
        LoopAction.skip_turn
      else LoopAction.inject_prompt) ∧
    (d.check agent msg).1.events =
      d.events ++
        [⟨agent, a, d.threshold, lastN d.window_size (d.history agent ++ [msg])⟩] := by
  unfold LoopDetector.check at h ⊢
  dsimp only at h ⊢
  by_cases hc : d.window_size - 1 ≤
      ((lastN d.window_size (d.history agent)).filter
        (fun past_msg => decide (d.threshold ≤ jaccard_similarity msg past_msg))).length
  · rw [if_pos hc] at h ⊢
    dsimp only at h ⊢
    rw [Option.some.injEq] at h
    exact ⟨h.symm, by rw [h]⟩
  · rw [if_neg hc] at h
    exact absurd h (by simp)

/-- The detector after one "repeat me" from agent "a". -/
def repeatDetector1 : LoopDetector := (defaultDetector.check "a" "repeat me").1

/-- The detector after two "repeat me" from agent "a": its stored history
for "a" has 2 messages, one fewer than `window_size`. -/
def repeatDetector2 : LoopDetector := (repeatDetector1.check "a" "repeat me").1

theorem c7_escalation_policy_witness :
    ((repeatDetector2.check "a" "repeat me").2 = some LoopAction.inject_prompt) ∧
    (LoopAction.inject_prompt =
      if 2 ≤ (repeatDetector2.events.filter
          (fun e => e.agent_name = "a")).length then LoopAction.kill
      else if 1 ≤ (repeatDetector2.events.filter
          (fun e => e.agent_name = "a")).length then LoopAction.skip_turn
      else LoopAction.inject_prompt) ∧
    ((repeatDetector2.check "a" "repeat me").1.events =
      repeatDetector2.events ++
        [⟨"a", LoopAction.inject_prompt, repeatDetector2.threshold,
          lastN repeatDetector2.window_size
            (repeatDetector2.history "a" ++ ["repeat me"])⟩]) :=
  ⟨by decide,
    (c7_escalation_policy repeatDetector2 "a" "repeat me"
      LoopAction.inject_prompt (by decide)).1,
    (c7_escalation_policy repeatDetector2 "a" "repeat me"
      LoopAction.inject_prompt (by decide)).2⟩

/-- C7 counterexample: with the default configuration, three identical
messages trigger a loop whose pairwise similarity is 1, yet the appended
`LoopEvent` records `similarity_score = 0.85` — the configured threshold,
not the similarity score that triggered the detection. -/
theorem c7_recorded_score_is_threshold_counterexample :
    ((repeatDetector2.check "a" "repeat me").2 = some LoopAction.inject_prompt) ∧
    ((repeatDetector2.check "a" "repeat me").1.events =
      [⟨"a", LoopAction.inject_prompt, 0.85,
        ["repeat me", "repeat me", "repeat me"]⟩]) ∧
    (jaccard_similarity "repeat me" "repeat me" = 1) ∧
    ((0.85 : ℚ) ≠ 1) := by
  refine ⟨by decide, by decide, by decide, by decide⟩

/-- C9 (amended): a stored history shorter than `window_size - 1` never
flags a loop, and — provided `window_size ≥ 2` and the threshold is
positive, as in the default configuration — neither does a message with no
words; in both cases no `LoopEvent` is appended. (The claim's bound
`window_size` is off by one: a history of exactly `window_size - 1`
similar messages does flag, see the counterexample.) -/
theorem c9_no_flag_on_short_history_or_empty_message
    (d : LoopDetector) (agent msg : String) :
    ((d.history agent).length < d.window_size - 1 →
      (d.check agent msg).2 = none ∧ (d.check agent msg).1.events = d.events) ∧
    (2 ≤ d.window_size → 0 < d.threshold → wordSet msg = [] →
      (d.check agent msg).2 = none ∧ (d.check agent msg).1.events = d.events) := by
  constructor
  · intro hlen
    have hcount : ((lastN d.window_size (d.history agent)).filter
        (fun past_msg => decide (d.threshold ≤ jaccard_similarity msg past_msg))).length <
        d.window_size - 1 :=
      lt_of_le_of_lt (le_trans (List.length_filter_le _ _)
        (lastN_length_le d.window_size (d.history agent))) hlen
    unfold LoopDetector.check
    dsimp only
    rw [if_neg (by omega)]
    exact ⟨rfl, rfl⟩
  · intro hw hθ hmsg
    have hzero : ∀ past : String,
        decide (d.threshold ≤ jaccard_similarity msg past) = false := by
      intro past
      rw [jaccard_left_empty msg past hmsg, decide_eq_false_iff_not]
      exact not_le_of_lt hθ
    have hfilter : ((lastN d.window_size (d.history agent)).filter
        (fun past_msg => decide (d.threshold ≤ jaccard_similarity msg past_msg))) = [] := by
      apply List.filter_eq_nil_iff.2
      intro past _
      rw [hzero past]
      exact Bool.false_ne_true
    unfold LoopDetector.check
    dsimp only
    rw [hfilter]
    rw [if_neg (by simp only [List.length_nil]; omega)]
    exact ⟨rfl, rfl⟩

theorem c9_no_flag_witness :
    ((defaultDetector.history "a").length < defaultDetector.window_size - 1) ∧
    ((defaultDetector.check "a" "repeat me").2 = none) ∧
    (2 ≤ defaultDetector.window_size) ∧ (0 < defaultDetector.threshold) ∧
    (wordSet " " = []) ∧
    ((repeatDetector2.check "a" " ").2 = none) ∧
    ((repeatDetector2.check "a" " ").1.events = repeatDetector2.events) :=
  ⟨by decide,
    ((c9_no_flag_on_short_history_or_empty_message defaultDetector
      "a" "repeat me").1 (by decide)).1,
    by decide, by decide,
    by decide,
    ((c9_no_flag_on_short_history_or_empty_message repeatDetector2
      "a" " ").2 (by decide) (by decide) (by decide)).1,
    ((c9_no_flag_on_short_history_or_empty_message repeatDetector2
      "a" " ").2 (by decide) (by decide) (by decide)).2⟩

/-- C9 counterexample: with the default configuration (`window_size = 3`),
a non-empty message arriving when the stored history holds only 2 messages
— strictly fewer than `window_size` — still flags a loop and appends a
`LoopEvent`, contradicting "history shorter than `window_size` never trips
a loop". -/
theorem c9_short_history_flags_counterexample :
    ((repeatDetector2.history "a").length = 2) ∧
    (repeatDetector2.window_size = 3) ∧
    (wordSet "repeat me" ≠ []) ∧
    ((repeatDetector2.check "a" "repeat me").2 = some LoopAction.inject_prompt) ∧
    ((repeatDetector2.check "a" "repeat me").1.events.length = 1) ∧
    (repeatDetector2.events.length = 0) := by
  refine ⟨by decide, by decide, by decide, by decide, by decide, by decide⟩

/-- The pairwise ordering guarantees of `get_relevant_lessons` output:
better validation status first, UNCONDITIONALLY — status is the primary
sort key; then higher confidence first (given equal status); then — as the
source actually behaves — OLDER lessons first (given equal status and
confidence). -/
def lessonOutputOrder (a b : Lesson) : Prop :=
  (statusOrder a.validation_status ≤ statusOrder b.validation_status) ∧
  (statusOrder a.validation_status = statusOrder b.validation_status →
    b.confidence ≤ a.confidence) ∧
  (statusOrder a.validation_status = statusOrder b.validation_status →
    a.confidence = b.confidence → a.created_at ≤ b.created_at)

theorem lessonSortLE_implies_outputOrder (a b : Lesson)
    (h : lessonSortLE a b) : lessonOutputOrder a b := by
  unfold lessonSortLE at h
  refine ⟨?_, ?_, ?_⟩
  · rcases h with h | ⟨he, _⟩
    · exact le_of_lt h
    · exact le_of_eq he
  · intro hs
    rcases h with h | ⟨_, h⟩
    · exact absurd hs (Nat.ne_of_lt h)
    · rcases h with h | ⟨he, _⟩
      · exact le_of_lt h
      · exact le_of_eq he.symm
  · intro hs hc
    rcases h with h | ⟨_, h⟩
    · exact absurd hs (Nat.ne_of_lt h)
    · rcases h with h | ⟨_, ht⟩
      · exact absurd hc (ne_of_gt h)
      · exact ht

/-- C8 (amended): `get_relevant_lessons` returns at most `limit` lessons,
each drawn from the store and satisfying the phase/category filters when
given; the output is pairwise ordered by validation status ascending in the
fixed order SUPPORTED < UNVALIDATED < CONTRADICTED as the primary key
(unconditionally — in particular SUPPORTED lessons precede UNVALIDATED
precede CONTRADICTED whatever the confidences), then by confidence
descending (given equal status), then by `created_at` ASCENDING — oldest
first, the opposite of the claimed "most recent first" (see the
counterexample). -/
theorem c8_relevant_lessons_ordering (e : LearningEngine) (phase : String)
    (category : Option LessonCategory) (limit : ℕ) :
    ((e.get_relevant_lessons phase category limit).length ≤ limit) ∧
    (∀ l ∈ e.get_relevant_lessons phase category limit,
      l ∈ e.lessons ∧ (phase ≠ "" → l.phase = phase) ∧
        (∀ c, category = some c → l.category = c)) ∧
    List.Pairwise lessonOutputOrder (e.get_relevant_lessons phase category limit) := by
  unfold LearningEngine.get_relevant_lessons
  dsimp only
  refine ⟨List.length_take_le limit _, ?_, ?_⟩
  · intro l hl
    have hl2 : l ∈ (match category with
        | none => if phase = "" then e.lessons
            else e.lessons.filter (fun l => l.phase == phase)
        | some c => (if phase = "" then e.lessons
            else e.lessons.filter (fun l => l.phase == phase)).filter
              (fun l => l.category == c)) := by
      have := List.mem_of_mem_take hl
      rwa [List.mem_insertionSort] at this
    refine ⟨?_, ?_, ?_⟩
    · rcases category with _ | c
      · dsimp only at hl2
        by_cases hp : phase = ""
        · rwa [if_pos hp] at hl2
        · rw [if_neg hp] at hl2
          exact List.mem_of_mem_filter hl2
      · dsimp only at hl2
        have hl3 := List.mem_of_mem_filter hl2
        by_cases hp : phase = ""
        · rwa [if_pos hp] at hl3
        · rw [if_neg hp] at hl3
          exact List.mem_of_mem_filter hl3
    · intro hp
      rcases category with _ | c
      · dsimp only at hl2
        rw [if_neg hp] at hl2
        have := List.of_mem_filter hl2
        rwa [beq_iff_eq] at this
      · dsimp only at hl2
        have hl3 := List.mem_of_mem_filter hl2
        rw [if_neg hp] at hl3
        have := List.of_mem_filter hl3
        rwa [beq_iff_eq] at this
    · intro c hc
      rcases category with _ | c'
      · cases hc
      · cases hc
        dsimp only at hl2
        have := List.of_mem_filter hl2
        rwa [beq_iff_eq] at this
  · refine List.Pairwise.sublist (List.take_sublist limit _) ?_
    exact List.Pairwise.imp (fun h => lessonSortLE_implies_outputOrder _ _ h)
      (List.sorted_insertionSort lessonSortLE _)

/-- Two same-status, same-confidence lessons, the older one first. -/
def olderLesson : Lesson :=
  ⟨"1", "s", "V", "ideation", .market_insight, "older", "e", 0.8, .supported, 1⟩

/-- The more recent of the two C8 fixture lessons. -/
def newerLesson : Lesson :=
  ⟨"2", "s", "V", "ideation", .market_insight, "newer", "e", 0.8, .supported, 2⟩

/-- A two-lesson engine for the C8 counterexample and witness. -/
def c8Engine : LearningEngine := ⟨[olderLesson, newerLesson]⟩

theorem c8_relevant_lessons_ordering_witness :
    ((c8Engine.get_relevant_lessons "ideation" none 10).length ≤ 10) ∧
    (olderLesson ∈ c8Engine.get_relevant_lessons "ideation" none 10) ∧
    (("ideation" : String) ≠ "" → olderLesson.phase = "ideation") :=
  ⟨(c8_relevant_lessons_ordering c8Engine "ideation" none 10).1,
    by decide,
    ((c8_relevant_lessons_ordering c8Engine "ideation" none 10).2.1
      olderLesson (by decide)).2.1⟩

/-- C8 counterexample: two SUPPORTED lessons with equal confidence,
`created_at` ticks 1 and 2. The source returns the OLDEST first
(`created_at` ascending), while the claim's "recency descending — most
recent first" ordering (`spec_get_relevant_lessons`) returns the newest
first; the two orderings disagree on this input. -/
theorem c8_recency_direction_counterexample :
    (c8Engine.get_relevant_lessons "" none 10 = [olderLesson, newerLesson]) ∧
    (spec_get_relevant_lessons c8Engine "" none 10 = [newerLesson, olderLesson]) ∧
    (olderLesson.created_at < newerLesson.created_at) ∧
    (olderLesson.confidence = newerLesson.confidence) ∧
    (olderLesson.validation_status = newerLesson.validation_status) ∧
    (c8Engine.get_relevant_lessons "" none 10 ≠
      spec_get_relevant_lessons c8Engine "" none 10) := by
  refine ⟨by decide, by decide, by decide, by decide, by decide, by decide⟩

/-- The items the gate loop collects as passed: matched scores with
`pass_gate = true`, statuses set to PASSED. -/
def passedIdeas (report : EvaluationReport) (ideas : List ProductIdea) :
    List ProductIdea :=
  (ideas.filter (ideaPasses report)).map
    (fun i => { i with status := IdeaStatus.passed })

/-- The items the gate loop archives: failed or unmatched scores, statuses
set to FAILED. -/
def archivedIdeas (report : EvaluationReport) (ideas : List ProductIdea) :
    List ProductIdea :=
  (ideas.filter (fun i => !(ideaPasses report i))).map
    (fun i => { i with status := IdeaStatus.failed })

/-- The monitor after the per-idea `check_agent_message` loop (whose
returned action the Controller discards). -/
def checkFold (m : SafetyMonitor) (ideas : List ProductIdea) : SafetyMonitor :=
  ideas.foldl
    (fun m idea => (m.check_agent_message "Visionary" idea.elevator_pitch).1) m

theorem gate_foldl (report : EvaluationReport) (ideas : List ProductIdea) :
    ∀ acc : List ProductIdea × List ProductIdea,
      ideas.foldl (gateStep report) acc =
        (acc.1 ++ passedIdeas report ideas, acc.2 ++ archivedIdeas report ideas) := by
  induction ideas with
  | nil => intro acc; simp [passedIdeas, archivedIdeas]
  | cons idea rest ih =>
    intro acc
    show rest.foldl (gateStep report) (gateStep report acc idea) = _
    rw [ih]
    unfold gateStep passedIdeas archivedIdeas
    cases hf : findScore report idea with
    | none =>
      have hp : ideaPasses report idea = false := by
        unfold ideaPasses; rw [hf]
      simp [hp, passedIdeas, archivedIdeas]
    | some s =>
      have hp : ideaPasses report idea = s.pass_gate := by
        unfold ideaPasses; rw [hf]
      cases hs : s.pass_gate with
      | true => simp [hs, hp, passedIdeas, archivedIdeas]
      | false => simp [hs, hp, passedIdeas, archivedIdeas]

theorem record_cost_ok_status (m : SafetyMonitor) (agent model : String)
    (i o : ℕ) (ph : String)
    (h : (m.record_cost agent model i o ph).2 = none) :
    (m.record_cost agent model i o ph).1.status = m.status ∧
    (m.record_cost agent model i o ph).1.events = m.events ∧
    (m.record_cost agent model i o ph).1.loop_detector = m.loop_detector := by
  unfold SafetyMonitor.record_cost at h ⊢
  dsimp only at h ⊢
  cases hr : (m.cost_tracker.record agent model i o ph).2 with
  | ok c => exact ⟨rfl, rfl, rfl⟩
  | error e => rw [hr] at h; simp at h

theorem check_not_running (m : SafetyMonitor) (agent msg : String)
    (h : m.status ≠ SystemStatus.running) :
    m.check_agent_message agent msg = (m, some LoopAction.kill) := by
  unfold SafetyMonitor.check_agent_message
  simp [SafetyMonitor.is_safe_to_proceed, h]

theorem check_status_cases (m : SafetyMonitor) (agent msg : String) :
    (m.check_agent_message agent msg).1.status = m.status ∨
      (m.check_agent_message agent msg).1.status = SystemStatus.killed := by
  unfold SafetyMonitor.check_agent_message
  by_cases h : m.is_safe_to_proceed
  · rw [if_neg (by simpa using h)]
    dsimp only
    cases (m.loop_detector.check agent msg).2 with
    | none => exact Or.inl rfl
    | some a =>
      dsimp only
      by_cases ha : a = LoopAction.kill
      · rw [if_pos ha]
        exact Or.inr rfl
      · rw [if_neg ha]
        exact Or.inl rfl
  · rw [if_pos (by simpa using h)]
    exact Or.inl rfl

theorem check_kill_from_running (m : SafetyMonitor) (agent msg : String)
    (h : m.status = SystemStatus.running)
    (hk : (m.check_agent_message agent msg).2 = some LoopAction.kill) :
    (m.check_agent_message agent msg).1.status = SystemStatus.killed := by
  unfold SafetyMonitor.check_agent_message at hk ⊢
  have hs : m.is_safe_to_proceed = true := by
    simp [SafetyMonitor.is_safe_to_proceed, h]
  rw [if_neg (by simp [hs])] at hk ⊢
  dsimp only at hk ⊢
  cases hc : (m.loop_detector.check agent msg).2 with
  | none => rw [hc] at hk; simp at hk
  | some a =>
    rw [hc] at hk
    dsimp only at hk
    rw [Option.some.injEq] at hk
    subst hk
    dsimp only
    rw [if_pos rfl]
    rfl

theorem checkFold_not_running (ideas : List ProductIdea) :
    ∀ m : SafetyMonitor, m.status ≠ SystemStatus.running →
      checkFold m ideas = m := by
  induction ideas with
  | nil => intro m _; rfl
  | cons idea rest ih =>
    intro m h
    show checkFold (m.check_agent_message "Visionary" idea.elevator_pitch).1 rest = m
    rw [check_not_running m "Visionary" idea.elevator_pitch h]
    exact ih m h

theorem checkFold_status_cases (ideas : List ProductIdea) :
    ∀ m : SafetyMonitor, (checkFold m ideas).status = m.status ∨
      (checkFold m ideas).status = SystemStatus.killed := by
  induction ideas with
  | nil => intro m; exact Or.inl rfl
  | cons idea rest ih =>
    intro m
    show (checkFold (m.check_agent_message "Visionary" idea.elevator_pitch).1 rest).status = m.status ∨
      (checkFold (m.check_agent_message "Visionary" idea.elevator_pitch).1 rest).status = SystemStatus.killed
    rcases ih (m.check_agent_message "Visionary" idea.elevator_pitch).1 with h | h
    · rw [h]
      exact check_status_cases m "Visionary" idea.elevator_pitch
    · exact Or.inr h

theorem execute_not_safe (o : Orchestrator)
    (g : Except String (IdeaBatch × Usage))
    (ev : Except String EvaluationReport)
    (h : o.safety.is_safe_to_proceed = false) :
    o.execute_ideation g ev =
      (o, failedPhaseResult PipelinePhase.ideation
        ("System status: " ++ o.safety.status.value)) := by
  unfold Orchestrator.execute_ideation
  dsimp only
  rw [if_pos (by simp [h])]

theorem execute_gen_error (o : Orchestrator) (e : String)
    (ev : Except String EvaluationReport)
    (h : o.safety.is_safe_to_proceed = true) :
    o.execute_ideation (Except.error e) ev =
      (o, failedPhaseResult PipelinePhase.ideation e) := by
  unfold Orchestrator.execute_ideation
  dsimp only
  rw [if_neg (by simp [h])]

theorem execute_cost_raise (o : Orchestrator) (batch : IdeaBatch)
    (usage : Usage) (ev : Except String EvaluationReport) (e : String)
    (hsafe : o.safety.is_safe_to_proceed = true)
    (hcost : (o.safety.record_cost "Visionary" "claude-sonnet-4-20250514"
      usage.request_tokens usage.response_tokens PipelinePhase.ideation.value).2 = some e) :
    o.execute_ideation (Except.ok (batch, usage)) ev =
      (⟨(o.safety.record_cost "Visionary" "claude-sonnet-4-20250514"
          usage.request_tokens usage.response_tokens PipelinePhase.ideation.value).1,
        { o.run with session_id := batch.session_id }⟩,
       failedPhaseResult PipelinePhase.ideation e) := by
  unfold Orchestrator.execute_ideation
  dsimp only
  rw [if_neg (by simp [hsafe])]
  try dsimp only
  rw [hcost]

theorem execute_eval_error (o : Orchestrator) (batch : IdeaBatch)
    (usage : Usage) (e : String)
    (hsafe : o.safety.is_safe_to_proceed = true)
    (hcost : (o.safety.record_cost "Visionary" "claude-sonnet-4-20250514"
      usage.request_tokens usage.response_tokens PipelinePhase.ideation.value).2 = none) :
    o.execute_ideation (Except.ok (batch, usage)) (Except.error e) =
      (⟨checkFold (o.safety.record_cost "Visionary" "claude-sonnet-4-20250514"
          usage.request_tokens usage.response_tokens PipelinePhase.ideation.value).1 batch.ideas,
        { o.run with session_id := batch.session_id }⟩,
       failedPhaseResult PipelinePhase.ideation e) := by
  unfold Orchestrator.execute_ideation
  dsimp only
  rw [if_neg (by simp [hsafe])]
  try dsimp only
  rw [hcost]
  rfl

theorem execute_gate_path (o : Orchestrator) (batch : IdeaBatch)
    (usage : Usage) (report : EvaluationReport)
    (hsafe : o.safety.is_safe_to_proceed = true)
    (hcost : (o.safety.record_cost "Visionary" "claude-sonnet-4-20250514"
      usage.request_tokens usage.response_tokens PipelinePhase.ideation.value).2 = none) :
    o.execute_ideation (Except.ok (batch, usage)) (Except.ok report) =
      (⟨checkFold (o.safety.record_cost "Visionary" "claude-sonnet-4-20250514"
          usage.request_tokens usage.response_tokens PipelinePhase.ideation.value).1 batch.ideas,
        ⟨batch.session_id, PipelinePhase.ideation, o.run.phase_results,
          passedIdeas report batch.ideas,
          o.run.archived_ideas ++ archivedIdeas report batch.ideas⟩⟩,
       ⟨PipelinePhase.ideation,
        decide (0 < (passedIdeas report batch.ideas).length),
        batch.ideas.length, (passedIdeas report batch.ideas).length,
        some report, none⟩) := by
  unfold Orchestrator.execute_ideation
  dsimp only
  rw [if_neg (by simp [hsafe])]
  try dsimp only
  rw [hcost]
  try dsimp only
  rw [show (batch.ideas.foldl (gateStep report) ([], [])) =
    (passedIdeas report batch.ideas, archivedIdeas report batch.ideas) from by
      rw [gate_foldl report batch.ideas ([], [])]; simp]
  rfl

/-- C5: the Controller never raises past its boundary — when unsafe at
entry it returns a failed `PhaseResult` describing the status without
consulting either external collaborator (the result is independent of
them); a generation exception, a `BudgetExceeded` raised by `record_cost`,
and an evaluation exception are each converted into a failed `PhaseResult`
carrying the error text. -/
theorem c5_no_raise_past_boundary (o : Orchestrator)
    (g g' : Except String (IdeaBatch × Usage))
    (ev ev' : Except String EvaluationReport) :
    (o.safety.is_safe_to_proceed = false →
      o.execute_ideation g ev = o.execute_ideation g' ev' ∧
      o.execute_ideation g ev =
        (o, failedPhaseResult PipelinePhase.ideation
          ("System status: " ++ o.safety.status.value))) ∧
    (∀ e, o.safety.is_safe_to_proceed = true → g = Except.error e →
      (o.execute_ideation g ev).2 = failedPhaseResult PipelinePhase.ideation e) ∧
    (∀ batch usage e, o.safety.is_safe_to_proceed = true →
      g = Except.ok (batch, usage) →
      (o.safety.record_cost "Visionary" "claude-sonnet-4-20250514"
        usage.request_tokens usage.response_tokens
        PipelinePhase.ideation.value).2 = some e →
      (o.execute_ideation g ev).2 = failedPhaseResult PipelinePhase.ideation e) ∧
    (∀ batch usage e, o.safety.is_safe_to_proceed = true →
      g = Except.ok (batch, usage) →
      (o.safety.record_cost "Visionary" "claude-sonnet-4-20250514"
        usage.request_tokens usage.response_tokens
        PipelinePhase.ideation.value).2 = none →
      ev = Except.error e →
      (o.execute_ideation g ev).2 = failedPhaseResult PipelinePhase.ideation e) := by
  refine ⟨?_, ?_, ?_, ?_⟩
  · intro h
    rw [execute_not_safe o g ev h, execute_not_safe o g' ev' h]
    exact ⟨rfl, rfl⟩
  · intro e hs hg
    subst hg
    rw [execute_gen_error o e ev hs]
  · intro batch usage e hs hg hc
    subst hg
    rw [execute_cost_raise o batch usage ev e hs hc]
  · intro batch usage e hs hg hc hev
    subst hg; subst hev
    rw [execute_eval_error o batch usage e hs hc]

/-- An empty run state. -/
def emptyRun : PipelineRun := ⟨"", .ideation, [], [], []⟩

/-- A healthy running Controller with a $15 budget. -/
def runningOrch : Orchestrator :=
  ⟨⟨⟨15, []⟩, defaultDetector, .running, []⟩, emptyRun⟩

/-- A Controller whose monitor has been killed. -/
def killedOrch : Orchestrator := ⟨killedMonitor, emptyRun⟩

/-- A running Controller with an almost-exhausted $0.01 budget. -/
def poorOrch : Orchestrator := ⟨c1Monitor, emptyRun⟩

/-- A one-item batch fixture. -/
def oneIdea : ProductIdea := ⟨"i1", "A", "pitch one", 1/2, .draft⟩

/-- The batch holding `oneIdea`. -/
def oneBatch : IdeaBatch := ⟨"sess", [oneIdea]⟩

/-- A usage cheap enough to stay under a $15 budget. -/
def smallUsage : Usage := ⟨10, 10⟩

/-- A usage expensive enough ($1.25 on sonnet pricing) to blow a $0.01
budget. -/
def bigUsage : Usage := ⟨100000, 100000⟩

theorem c5_no_raise_past_boundary_witness :
    (killedOrch.safety.is_safe_to_proceed = false) ∧
    (killedOrch.execute_ideation (Except.error "x") (Except.error "y") =
      killedOrch.execute_ideation (Except.ok (oneBatch, smallUsage))
        (Except.error "y")) ∧
    (killedOrch.execute_ideation (Except.error "x") (Except.error "y") =
      (killedOrch, failedPhaseResult PipelinePhase.ideation
        ("System status: " ++ killedOrch.safety.status.value))) ∧
    (runningOrch.safety.is_safe_to_proceed = true) ∧
    ((runningOrch.execute_ideation (Except.error "boom")
        (Except.ok ⟨"sess", [], 6⟩)).2 =
      failedPhaseResult PipelinePhase.ideation "boom") ∧
    ((poorOrch.safety.record_cost "Visionary" "claude-sonnet-4-20250514"
        bigUsage.request_tokens bigUsage.response_tokens
        PipelinePhase.ideation.value).2 =
      some (budgetExceededMessage (9/5) (1/100))) ∧
    ((poorOrch.execute_ideation (Except.ok (oneBatch, bigUsage))
        (Except.ok ⟨"sess", [], 6⟩)).2 =
      failedPhaseResult PipelinePhase.ideation
        (budgetExceededMessage (9/5) (1/100))) ∧
    ((runningOrch.execute_ideation (Except.ok (oneBatch, smallUsage))
        (Except.error "judge down")).2 =
      failedPhaseResult PipelinePhase.ideation "judge down") :=
  ⟨by decide,
    ((c5_no_raise_past_boundary killedOrch (Except.error "x")
      (Except.ok (oneBatch, smallUsage)) (Except.error "y")
      (Except.error "y")).1 (by decide)).1,
    ((c5_no_raise_past_boundary killedOrch (Except.error "x")
      (Except.ok (oneBatch, smallUsage)) (Except.error "y")
      (Except.error "y")).1 (by decide)).2,
    by decide,
    (c5_no_raise_past_boundary runningOrch (Except.error "boom")
      (Except.error "boom") (Except.ok ⟨"sess", [], 6⟩)
      (Except.ok ⟨"sess", [], 6⟩)).2.1 "boom" (by decide) rfl,
    by decide,
    (c5_no_raise_past_boundary poorOrch (Except.ok (oneBatch, bigUsage))
      (Except.ok (oneBatch, bigUsage)) (Except.ok ⟨"sess", [], 6⟩)
      (Except.ok ⟨"sess", [], 6⟩)).2.2.1 oneBatch bigUsage
      (budgetExceededMessage (9/5) (1/100)) (by decide) rfl (by decide),
    (c5_no_raise_past_boundary runningOrch (Except.ok (oneBatch, smallUsage))
      (Except.ok (oneBatch, smallUsage)) (Except.error "judge down")
      (Except.error "judge down")).2.2.2 oneBatch smallUsage
      "judge down" (by decide) rfl (by decide) rfl⟩

/-- C4 (amended): on the gate path, each item is matched by `findScore` —
the FIRST score in report order whose `idea_id` equals the item's id or
whose `idea_name` equals the item's name (the source does not privilege
identifier matches over earlier name matches; see the counterexample) —
items whose matched score passes are marked PASSED and advanced, all others
(failed or unmatched) are marked FAILED and archived, an unmatched item is
never passed, and the `PhaseResult` reports `success` iff at least one item
advanced, `ideas_in` = items produced, `ideas_out` = items advanced. -/
theorem c4_gate_partition (o : Orchestrator) (batch : IdeaBatch)
    (usage : Usage) (report : EvaluationReport)
    (hsafe : o.safety.is_safe_to_proceed = true)
    (hcost : (o.safety.record_cost "Visionary" "claude-sonnet-4-20250514"
      usage.request_tokens usage.response_tokens
      PipelinePhase.ideation.value).2 = none) :
    ((o.execute_ideation (Except.ok (batch, usage))
        (Except.ok report)).2.evaluation = some report) ∧
    ((o.execute_ideation (Except.ok (batch, usage))
        (Except.ok report)).2.ideas_in = batch.ideas.length) ∧
    ((o.execute_ideation (Except.ok (batch, usage))
        (Except.ok report)).2.ideas_out =
      (batch.ideas.filter (ideaPasses report)).length) ∧
    ((o.execute_ideation (Except.ok (batch, usage))
        (Except.ok report)).2.success = true ↔
      0 < (batch.ideas.filter (ideaPasses report)).length) ∧
    ((o.execute_ideation (Except.ok (batch, usage))
        (Except.ok report)).1.run.active_ideas =
      passedIdeas report batch.ideas) ∧
    ((o.execute_ideation (Except.ok (batch, usage))
        (Except.ok report)).1.run.archived_ideas =
      o.run.archived_ideas ++ archivedIdeas report batch.ideas) ∧
    (∀ idea, findScore report idea = none → ideaPasses report idea = false) ∧
    (∀ idea s, findScore report idea = some s →
      ideaPasses report idea = s.pass_gate) := by
  rw [execute_gate_path o batch usage report hsafe hcost]
  refine ⟨rfl, rfl, ?_, ?_, rfl, rfl, ?_, ?_⟩
  · simp [passedIdeas]
  · simp [passedIdeas]
  · intro idea hf
    unfold ideaPasses
    rw [hf]
  · intro idea s hf
    unfold ideaPasses
    rw [hf]

theorem c4_gate_partition_witness :
    (runningOrch.safety.is_safe_to_proceed = true) ∧
    ((runningOrch.safety.record_cost "Visionary" "claude-sonnet-4-20250514"
        smallUsage.request_tokens smallUsage.response_tokens
        PipelinePhase.ideation.value).2 = none) ∧
    ((runningOrch.execute_ideation (Except.ok (oneBatch, smallUsage))
        (Except.ok ⟨"sess", [⟨"i1", "A", 8, "good", true⟩], 6⟩)).2.ideas_in = 1) ∧
    ((runningOrch.execute_ideation (Except.ok (oneBatch, smallUsage))
        (Except.ok ⟨"sess", [⟨"i1", "A", 8, "good", true⟩], 6⟩)).2.ideas_out = 1) ∧
    ((runningOrch.execute_ideation (Except.ok (oneBatch, smallUsage))
        (Except.ok ⟨"sess", [⟨"i1", "A", 8, "good", true⟩], 6⟩)).1.run.active_ideas =
      passedIdeas ⟨"sess", [⟨"i1", "A", 8, "good", true⟩], 6⟩ [oneIdea]) :=
  ⟨by decide, by decide,
    (c4_gate_partition runningOrch oneBatch smallUsage
      ⟨"sess", [⟨"i1", "A", 8, "good", true⟩], 6⟩ (by decide) (by decide)).2.1,
    by rw [(c4_gate_partition runningOrch oneBatch smallUsage
      ⟨"sess", [⟨"i1", "A", 8, "good", true⟩], 6⟩ (by decide) (by decide)).2.2.1]; decide,
    (c4_gate_partition runningOrch oneBatch smallUsage
      ⟨"sess", [⟨"i1", "A", 8, "good", true⟩], 6⟩ (by decide) (by decide)).2.2.2.2.1⟩

/-- The matching rule the claim states: look the item up by identifier
across the whole score list first, and fall back to name-matching only if
no identifier match exists. Used only to compare against the source's
`findScore`. -/
def spec_findScore (report : EvaluationReport) (idea : ProductIdea) :
    Option IdeaScore :=
  match report.scores.find? (fun s => s.idea_id == idea.id) with
  | some s => some s
  | none => report.scores.find? (fun s => s.idea_name == idea.name)

/-- The C4 counterexample item: id "i1", name "A". -/
def c4Idea : ProductIdea := ⟨"i1", "A", "a pitch", 1/2, .draft⟩

/-- A failing score that matches `c4Idea` only by name, listed first. -/
def c4ScoreByName : IdeaScore := ⟨"zz", "A", 3, "weak", false⟩

/-- A passing score that matches `c4Idea` by identifier, listed second. -/
def c4ScoreById : IdeaScore := ⟨"i1", "other name", 9, "strong", true⟩

/-- The C4 counterexample report: the name-only match precedes the
identifier match. -/
def c4Report : EvaluationReport := ⟨"sess", [c4ScoreByName, c4ScoreById], 6⟩

/-- The C4 counterexample batch. -/
def c4Batch : IdeaBatch := ⟨"sess", [c4Idea]⟩

/-- C4 counterexample: a passing identifier-matched score exists, so under
the claim's "identifier first, name only as fallback" rule the item would
be PASSED and advanced; the source takes the FIRST score matching by id OR
name — here the earlier, failing name-match — so the item is FAILED and
archived (`ideas_out = 0`, `success = false`). -/
theorem c4_matching_order_counterexample :
    (spec_findScore c4Report c4Idea = some c4ScoreById) ∧
    (c4ScoreById.pass_gate = true) ∧
    (findScore c4Report c4Idea = some c4ScoreByName) ∧
    (c4ScoreByName.pass_gate = false) ∧
    ((runningOrch.execute_ideation (Except.ok (c4Batch, smallUsage))
        (Except.ok c4Report)).2.ideas_out = 0) ∧
    ((runningOrch.execute_ideation (Except.ok (c4Batch, smallUsage))
        (Except.ok c4Report)).2.success = false) ∧
    ((runningOrch.execute_ideation (Except.ok (c4Batch, smallUsage))
        (Except.ok c4Report)).1.run.archived_ideas =
      [{ c4Idea with status := IdeaStatus.failed }]) := by
  refine ⟨by decide, by decide, by decide, by decide, by decide, by decide,
    by decide⟩

theorem is_safe_status (m : SafetyMonitor)
    (h : m.is_safe_to_proceed = true) : m.status = SystemStatus.running := by
  unfold SafetyMonitor.is_safe_to_proceed at h
  exact of_decide_eq_true h

/-- C2 (amended): a KILL returned by `check_message` mid-phase does NOT
abort the remainder of the phase. The Controller discards the returned
action: the remaining items are still passed through the check (each call
now returning KILL fail-closed without touching state), the evaluator is
still invoked and its report returned, and every produced item — including
those after the KILL — is still gate-partitioned into the advanced or
archived set. The kill is still effective for the run: the monitor ends
the phase with status KILLED, so the next phase's precondition check
fails. -/
theorem c2_kill_does_not_abort (o : Orchestrator) (batch : IdeaBatch)
    (usage : Usage) (report : EvaluationReport)
    (pre post : List ProductIdea) (item : ProductIdea)
    (hsafe : o.safety.is_safe_to_proceed = true)
    (hcost : (o.safety.record_cost "Visionary" "claude-sonnet-4-20250514"
      usage.request_tokens usage.response_tokens
      PipelinePhase.ideation.value).2 = none)
    (hsplit : batch.ideas = pre ++ item :: post)
    (hkill : ((checkFold (o.safety.record_cost "Visionary"
        "claude-sonnet-4-20250514" usage.request_tokens usage.response_tokens
        PipelinePhase.ideation.value).1 pre).check_agent_message
        "Visionary" item.elevator_pitch).2 = some LoopAction.kill) :
    ((o.execute_ideation (Except.ok (batch, usage))
        (Except.ok report)).2.evaluation = some report) ∧
    ((o.execute_ideation (Except.ok (batch, usage))
        (Except.ok report)).2.ideas_in = pre.length + 1 + post.length) ∧
    ((o.execute_ideation (Except.ok (batch, usage))
        (Except.ok report)).1.safety.status = SystemStatus.killed) ∧
    ((o.execute_ideation (Except.ok (batch, usage))
        (Except.ok report)).1.run.active_ideas.length +
      (o.execute_ideation (Except.ok (batch, usage))
        (Except.ok report)).1.run.archived_ideas.length =
      o.run.archived_ideas.length + batch.ideas.length) := by
  rw [execute_gate_path o batch usage report hsafe hcost]
  refine ⟨rfl, ?_, ?_, ?_⟩
  · show batch.ideas.length = pre.length + 1 + post.length
    rw [hsplit]
    simp [List.length_append]
    omega
  · show (checkFold (o.safety.record_cost "Visionary"
        "claude-sonnet-4-20250514" usage.request_tokens usage.response_tokens
        PipelinePhase.ideation.value).1 batch.ideas).status = SystemStatus.killed
    rw [hsplit]
    have hsplitFold : checkFold (o.safety.record_cost "Visionary"
        "claude-sonnet-4-20250514" usage.request_tokens usage.response_tokens
        PipelinePhase.ideation.value).1 (pre ++ item :: post) =
        checkFold ((checkFold (o.safety.record_cost "Visionary"
          "claude-sonnet-4-20250514" usage.request_tokens usage.response_tokens
          PipelinePhase.ideation.value).1 pre).check_agent_message
          "Visionary" item.elevator_pitch).1 post := by
      unfold checkFold
      rw [List.foldl_append]
      rfl
    rw [hsplitFold]
    have hrc : (o.safety.record_cost "Visionary" "claude-sonnet-4-20250514"
        usage.request_tokens usage.response_tokens
        PipelinePhase.ideation.value).1.status = SystemStatus.running := by
      rw [(record_cost_ok_status o.safety "Visionary" "claude-sonnet-4-20250514"
        usage.request_tokens usage.response_tokens
        PipelinePhase.ideation.value hcost).1]
      exact is_safe_status o.safety hsafe
    have hmid : ((checkFold (o.safety.record_cost "Visionary"
        "claude-sonnet-4-20250514" usage.request_tokens usage.response_tokens
        PipelinePhase.ideation.value).1 pre).check_agent_message
        "Visionary" item.elevator_pitch).1.status = SystemStatus.killed := by
      rcases checkFold_status_cases pre (o.safety.record_cost "Visionary"
          "claude-sonnet-4-20250514" usage.request_tokens usage.response_tokens
          PipelinePhase.ideation.value).1 with h | h
      · exact check_kill_from_running _ "Visionary" item.elevator_pitch
          (h.trans hrc) hkill
      · rw [check_not_running _ "Visionary" item.elevator_pitch
          (by rw [h]; intro hc; cases hc)]
        exact h
    rcases checkFold_status_cases post ((checkFold (o.safety.record_cost
        "Visionary" "claude-sonnet-4-20250514" usage.request_tokens
        usage.response_tokens PipelinePhase.ideation.value).1
        pre).check_agent_message "Visionary" item.elevator_pitch).1 with h | h
    · exact h.trans hmid
    · exact h
  · show (passedIdeas report batch.ideas).length +
      (o.run.archived_ideas ++ archivedIdeas report batch.ideas).length =
      o.run.archived_ideas.length + batch.ideas.length
    unfold passedIdeas archivedIdeas
    rw [List.length_append, List.length_map, List.length_map]
    rw [List.length_eq_length_filter_add (l := batch.ideas) (ideaPasses report)]
    omega

/-- A loop detector primed so the next "repeat me" from the Visionary is
the third offence: two prior events and a 2-message similar history. -/
def c2Detector : LoopDetector :=
  ⟨0.85, 3,
    fun a => if a = "Visionary" then ["repeat me", "repeat me"] else [],
    [⟨"Visionary", .inject_prompt, 0.85, []⟩,
     ⟨"Visionary", .skip_turn, 0.85, []⟩]⟩

/-- A running monitor over `c2Detector` with plenty of budget. -/
def c2Monitor : SafetyMonitor := ⟨⟨15, []⟩, c2Detector, .running, []⟩

/-- The Controller for the C2 scenario. -/
def c2Orch : Orchestrator := ⟨c2Monitor, emptyRun⟩

/-- First produced item: its pitch trips the primed detector → KILL. -/
def c2Idea1 : ProductIdea := ⟨"i1", "A", "repeat me", 1/2, .draft⟩

/-- Second produced item, after the KILL. -/
def c2Idea2 : ProductIdea := ⟨"i2", "B", "fresh pitch", 1/2, .draft⟩

/-- The two-item batch for the C2 scenario. -/
def c2Batch : IdeaBatch := ⟨"sess", [c2Idea1, c2Idea2]⟩

/-- A report with no scores — both items are unmatched. -/
def c2Report : EvaluationReport := ⟨"sess", [], 6⟩

theorem c2_kill_does_not_abort_witness :
    (c2Orch.safety.is_safe_to_proceed = true) ∧
    (((checkFold (c2Orch.safety.record_cost "Visionary"
        "claude-sonnet-4-20250514" smallUsage.request_tokens
        smallUsage.response_tokens PipelinePhase.ideation.value).1
        []).check_agent_message "Visionary"
        c2Idea1.elevator_pitch).2 = some LoopAction.kill) ∧
    ((c2Orch.execute_ideation (Except.ok (c2Batch, smallUsage))
        (Except.ok c2Report)).2.evaluation = some c2Report) ∧
    ((c2Orch.execute_ideation (Except.ok (c2Batch, smallUsage))
        (Except.ok c2Report)).1.safety.status = SystemStatus.killed) ∧
    ((c2Orch.execute_ideation (Except.ok (c2Batch, smallUsage))
        (Except.ok c2Report)).1.run.active_ideas.length +
      (c2Orch.execute_ideation (Except.ok (c2Batch, smallUsage))
        (Except.ok c2Report)).1.run.archived_ideas.length =
      c2Orch.run.archived_ideas.length + c2Batch.ideas.length) :=
  ⟨by decide, by decide,
    (c2_kill_does_not_abort c2Orch c2Batch smallUsage c2Report
      [] [c2Idea2] c2Idea1 (by decide) (by decide) rfl (by decide)).1,
    (c2_kill_does_not_abort c2Orch c2Batch smallUsage c2Report
      [] [c2Idea2] c2Idea1 (by decide) (by decide) rfl (by decide)).2.2.1,
    (c2_kill_does_not_abort c2Orch c2Batch smallUsage c2Report
      [] [c2Idea2] c2Idea1 (by decide) (by decide) rfl (by decide)).2.2.2⟩

/-- C2 counterexample: the first item's pitch makes `check_agent_message`
return KILL, yet the phase is not aborted — the second item is still
gate-processed (it ends up FAILED in the archive), and the evaluation
report is still produced and returned. -/
theorem c2_phase_not_aborted_counterexample :
    (((c2Orch.safety.record_cost "Visionary" "claude-sonnet-4-20250514"
        smallUsage.request_tokens smallUsage.response_tokens
        PipelinePhase.ideation.value).1.check_agent_message "Visionary"
        c2Idea1.elevator_pitch).2 = some LoopAction.kill) ∧
    ((c2Orch.execute_ideation (Except.ok (c2Batch, smallUsage))
        (Except.ok c2Report)).2.evaluation = some c2Report) ∧
    ((c2Orch.execute_ideation (Except.ok (c2Batch, smallUsage))
        (Except.ok c2Report)).1.run.archived_ideas =
      [{ c2Idea1 with status := IdeaStatus.failed },
       { c2Idea2 with status := IdeaStatus.failed }]) ∧
    ((c2Orch.execute_ideation (Except.ok (c2Batch, smallUsage))
        (Except.ok c2Report)).2.ideas_in = 2) := by
  refine ⟨by decide, by decide, by decide, by decide⟩

end Theorems

end AIProductTeam
